import Mathlib

/-!
Shallow embedding of `src/web_interface/static/js/main.js`: the browser-side
form submission controller.  The script registers a submit handler that
validates the text field, POSTs a JSON payload to `/analyze`, and renders
three independent result slots (sentiment, translation, chat) plus an error
banner.  DOM state touched by the script is modelled as a `UIState` record;
the server's answer is modelled as a `FetchResult`; JavaScript `undefined`
fields are `Option.none`; a thrown exception inside the `try` block is the
`Option String` component of `tryBlock`'s result (the state component keeps
every DOM write performed before the throw, as in the browser).
-/

/-- Whitespace characters removed by JavaScript `String.prototype.trim`
(ASCII whitespace, NBSP, BOM and the Unicode space separators). -/
def isJsWhitespace (c : Char) : Bool :=
  c = ' ' || c = '\t' || c = '\n' || c = '\r' ||
  c = Char.ofNat 0x0B || c = Char.ofNat 0x0C || c = Char.ofNat 0xA0 ||
  c = Char.ofNat 0xFEFF || c = Char.ofNat 0x1680 ||
  (0x2000 ≤ c.toNat && c.toNat ≤ 0x200A) ||
  c = Char.ofNat 0x2028 || c = Char.ofNat 0x2029 ||
  c = Char.ofNat 0x202F || c = Char.ofNat 0x205F || c = Char.ofNat 0x3000

/-- JavaScript `text.trim()`: strip leading and trailing whitespace. -/
def jsTrim (s : String) : String :=
  String.mk (((s.toList.dropWhile isJsWhitespace).reverse.dropWhile isJsWhitespace).reverse)

/-- Truthiness of a JSON field holding a string or being absent:
`undefined` (absent) and the empty string are falsy, every other string is
truthy.  This is the JavaScript condition `data.x.error`, `data.error`, …  -/
def truthyStr : Option String → Bool
  | none => false
  | some s => s ≠ ""

/-- JavaScript string coercion of a possibly-`undefined` string value, as
performed by template literals and by assigning to `innerHTML`. -/
def jsStr (o : Option String) : String := o.getD "undefined"

/-- JavaScript `Number.prototype.toFixed(2)` on an (idealised, rational)
score: round to the nearest hundredth and print with two decimals. -/
def toFixed2 (q : ℚ) : String :=
  let n : ℤ := round (|q| * 100)
  let sign := if q < 0 && n ≠ 0 then "-" else ""
  let ip := n.toNat / 100
  let fp := n.toNat % 100
  sign ++ toString ip ++ "." ++ (if fp < 10 then "0" else "") ++ toString fp

/-- The `sentiment` slot of the response envelope.  Fields the server may
omit are `Option`s (`none` = JavaScript `undefined`). -/
structure SentimentSlot where
  error : Option String
  sentiment : Option String
  score : Option ℚ
  deriving DecidableEq

/-- The `translation` slot of the response envelope. -/
structure TranslationSlot where
  error : Option String
  text : Option String
  deriving DecidableEq

/-- The `chat` slot of the response envelope. -/
structure ChatSlot where
  error : Option String
  response : Option String
  deriving DecidableEq

/-- The parsed JSON response envelope.  Each of the three slots may be
absent; `performance` is opaque diagnostic data (only logged). -/
structure Envelope where
  error : Option String
  sentiment : Option SentimentSlot
  translation : Option TranslationSlot
  chat : Option ChatSlot
  performance : Option String
  deriving DecidableEq

/-- Result of `await response.json()`: either a JSON parse failure (which
throws) or the parsed envelope. -/
inductive Body where
  | parseError
  | parsed (data : Envelope)
  deriving DecidableEq

/-- Result of `await fetch(...)`: a network failure (`fetch` rejects) or a
response carrying an HTTP status and a body. -/
inductive FetchResult where
  | networkError
  | response (status : Nat) (body : Body)
  deriving DecidableEq

/-- `response.ok`: true exactly for 2xx statuses. -/
def statusOk (status : Nat) : Bool :=
  200 ≤ status && status ≤ 299

/-- The DOM state the script reads and writes: the submit button's
`disabled` flag, the `error` div's visibility and `errorMessage` text, the
`results` region's visibility, and the `innerHTML` of the three result
elements. -/
structure UIState where
  buttonDisabled : Bool
  errorVisible : Bool
  errorMessage : String
  resultsVisible : Bool
  sentimentResult : String
  translationResult : String
  chatResult : String
  deriving DecidableEq

/-- The JSON payload POSTed to `/analyze`. -/
structure Payload where
  text : String
  source_lang : String
  target_lang : String
  deriving DecidableEq

/-- Message shown on empty or whitespace-only input. -/
def emptyInputMsg : String := "Please enter some text to analyze."

/-- Generic catch-all banner message. -/
def genericErrorMsg : String :=
  "An error occurred while processing your request. Please try again."

/-- `showError(message)`: set the banner text, show the `error` div and
hide the `results` region. -/
def showError (message : String) (s : UIState) : UIState :=
  { s with errorMessage := message, errorVisible := true, resultsVisible := false }

/-- `hideError()`: hide the `error` div. -/
def hideError (s : UIState) : UIState :=
  { s with errorVisible := false }

/-- `hideResults()`: hide the `results` region. -/
def hideResults (s : UIState) : UIState :=
  { s with resultsVisible := false }

/-- `showResults()`: show the `results` region. -/
def showResults (s : UIState) : UIState :=
  { s with resultsVisible := true }

/-- The error-styled inline HTML written into a slot whose `error` field is
truthy. -/
def errorSpan (m : String) : String :=
  "<span class=\"text-danger\">Error: " ++ m ++ "</span>"

/-- The success HTML for the sentiment slot. -/
def sentimentSuccessHtml (sent : Option String) (q : ℚ) : String :=
  "Sentiment: " ++ jsStr sent ++ " (Score: " ++ toFixed2 q ++ ")"

/-- The `sentimentHtml` ternary: an error span when `error` is truthy,
otherwise the success line — where `score.toFixed(2)` throws a `TypeError`
when `score` is `undefined`. -/
def renderSentiment (slot : SentimentSlot) : Except String String :=
  if truthyStr slot.error then
    .ok (errorSpan (slot.error.getD ""))
  else
    match slot.score with
    | none => .error "TypeError: cannot read toFixed of undefined"
    | some q => .ok (sentimentSuccessHtml slot.sentiment q)

/-- The `translationHtml` ternary: an error span when `error` is truthy,
otherwise `data.translation.text` (coerced by the `innerHTML` setter). -/
def renderTranslation (slot : TranslationSlot) : String :=
  if truthyStr slot.error then errorSpan (slot.error.getD "")
  else jsStr slot.text

/-- The `chatHtml` ternary: an error span when `error` is truthy, otherwise
`data.chat.response` (coerced by the `innerHTML` setter). -/
def renderChat (slot : ChatSlot) : String :=
  if truthyStr slot.error then errorSpan (slot.error.getD "")
  else jsStr slot.response

/-- The body of the `try` block, from `await fetch` to the performance log.
Returns the DOM state after the last executed statement together with
`some msg` when an exception was thrown (the state keeps all writes made
before the throw).  Reading `.error` on an absent slot throws a
`TypeError`, matching the source's unguarded `data.sentiment.error` etc. -/
def tryBlock (fetch : FetchResult) (s : UIState) : UIState × Option String :=
  match fetch with
  | .networkError => (s, some "TypeError: Failed to fetch")
  | .response status body =>
    if !statusOk status then
      (s, some ("HTTP error! status: " ++ toString status))
    else
      match body with
      | .parseError => (s, some "SyntaxError: unexpected token in JSON")
      | .parsed data =>
        if truthyStr data.error then
          (s, some (data.error.getD ""))
        else
          let s := { s with resultsVisible := true }
          match data.sentiment with
          | none => (s, some "TypeError: data.sentiment is undefined")
          | some sent =>
            match renderSentiment sent with
            | .error m => (s, some m)
            | .ok html =>
              let s := { s with sentimentResult := html }
              match data.translation with
              | none => (s, some "TypeError: data.translation is undefined")
              | some tr =>
                let s := { s with translationResult := renderTranslation tr }
                match data.chat with
                | none => (s, some "TypeError: data.chat is undefined")
                | some ch =>
                  let s := { s with chatResult := renderChat ch }
                  (s, none)

/-- The submit handler.  Returns the final DOM state together with the
payload POSTed to `/analyze`, or `none` when no network request was issued.
`fetch` models the outcome of the one network call for this submission. -/
def handleSubmit (textVal sourceLang targetLang : String) (fetch : FetchResult)
    (s0 : UIState) : UIState × Option Payload :=
  if jsTrim textVal = "" then
    (showError emptyInputMsg s0, none)
  else
    let s1 := hideResults (hideError { s0 with buttonDisabled := true })
    let r := tryBlock fetch s1
    let s2 := match r.2 with
      | some _ => showError genericErrorMsg r.1
      | none => r.1
    ({ s2 with buttonDisabled := false }, some ⟨textVal, sourceLang, targetLang⟩)

/-- A fresh page state: everything hidden and empty, button enabled. -/
def initState : UIState :=
  ⟨false, false, "", false, "", "", ""⟩

/-! ## Claim theorems -/

/-- C1 (counterexample): a 200 envelope with top-level `error = "bad input"`
does NOT show "bad input" as the banner: the handler throws
`new Error(data.error)` and the catch block shows the generic message. -/
theorem c1_counterexample :
    (handleSubmit "hi" "en" "fr"
      (FetchResult.response 200 (Body.parsed ⟨some "bad input", none, none, none, none⟩))
      initState).1.errorVisible = true ∧
    (handleSubmit "hi" "en" "fr"
      (FetchResult.response 200 (Body.parsed ⟨some "bad input", none, none, none, none⟩))
      initState).1.errorMessage ≠ "bad input" ∧
    (handleSubmit "hi" "en" "fr"
      (FetchResult.response 200 (Body.parsed ⟨some "bad input", none, none, none, none⟩))
      initState).1.errorMessage = genericErrorMsg := by
  refine ⟨rfl, ?_, rfl⟩
  decide

/-- C1 (amended): for every 200 response whose envelope carries a truthy
top-level `error` field, the handler treats the whole request as failed and
shows the generic error banner (the server-supplied text is only thrown and
logged, not displayed), and does not reveal the per-slot results region. -/
theorem c1_top_level_error (textVal sourceLang targetLang : String) (status : Nat)
    (data : Envelope) (s0 : UIState)
    (hval : jsTrim textVal ≠ "") (hok : statusOk status = true)
    (herr : truthyStr data.error = true) :
    (handleSubmit textVal sourceLang targetLang
      (FetchResult.response status (Body.parsed data)) s0).1.errorVisible = true ∧
    (handleSubmit textVal sourceLang targetLang
      (FetchResult.response status (Body.parsed data)) s0).1.errorMessage = genericErrorMsg ∧
    (handleSubmit textVal sourceLang targetLang
      (FetchResult.response status (Body.parsed data)) s0).1.resultsVisible = false := by
  simp [handleSubmit, tryBlock, hval, hok, herr, showError, hideError, hideResults]

/-- C1 witness. -/
theorem c1_top_level_error_witness :
    (handleSubmit "hi" "en" "fr"
      (FetchResult.response 200 (Body.parsed ⟨some "bad input", none, none, none, none⟩))
      initState).1.errorVisible = true ∧
    (handleSubmit "hi" "en" "fr"
      (FetchResult.response 200 (Body.parsed ⟨some "bad input", none, none, none, none⟩))
      initState).1.errorMessage = genericErrorMsg ∧
    (handleSubmit "hi" "en" "fr"
      (FetchResult.response 200 (Body.parsed ⟨some "bad input", none, none, none, none⟩))
      initState).1.resultsVisible = false :=
  c1_top_level_error "hi" "en" "fr" 200 ⟨some "bad input", none, none, none, none⟩
    initState (by decide) (by decide) (by decide)

/-- C2: in a 200 envelope with all three slots present, each slot renders
independently: a slot with a truthy `error` shows exactly the error-styled
"Error: X" span, while the other slots that succeeded show their normal
success content. -/
theorem c2_slot_independence (textVal sourceLang targetLang : String) (status : Nat)
    (data : Envelope) (s0 : UIState) (sent : SentimentSlot)
    (tr : TranslationSlot) (ch : ChatSlot) (eS t c : String)
    (hval : jsTrim textVal ≠ "") (hok : statusOk status = true)
    (herr : truthyStr data.error = false)
    (hsent : data.sentiment = some sent) (hse : sent.error = some eS) (heS : eS ≠ "")
    (htr : data.translation = some tr) (hte : truthyStr tr.error = false)
    (htt : tr.text = some t)
    (hch : data.chat = some ch) (hce : truthyStr ch.error = false)
    (hcr : ch.response = some c) :
    (handleSubmit textVal sourceLang targetLang
      (FetchResult.response status (Body.parsed data)) s0).1.sentimentResult = errorSpan eS ∧
    (handleSubmit textVal sourceLang targetLang
      (FetchResult.response status (Body.parsed data)) s0).1.translationResult = t ∧
    (handleSubmit textVal sourceLang targetLang
      (FetchResult.response status (Body.parsed data)) s0).1.chatResult = c ∧
    (handleSubmit textVal sourceLang targetLang
      (FetchResult.response status (Body.parsed data)) s0).1.resultsVisible = true ∧
    (handleSubmit textVal sourceLang targetLang
      (FetchResult.response status (Body.parsed data)) s0).1.errorVisible = false := by
  have hst : truthyStr (some eS) = true := by simp [truthyStr, heS]
  simp [handleSubmit, tryBlock, hval, hok, herr, hsent, htr, hch,
    renderSentiment, renderTranslation, renderChat, hst, hse, hte, hce, htt, hcr,
    jsStr, hideError, hideResults]

/-- C2 witness. -/
theorem c2_slot_independence_witness :
    (handleSubmit "hi" "en" "fr"
      (FetchResult.response 200 (Body.parsed
        ⟨none, some ⟨some "X", none, none⟩, some ⟨none, some "bonjour"⟩,
         some ⟨none, some "hello"⟩, none⟩)) initState).1.sentimentResult = errorSpan "X" ∧
    (handleSubmit "hi" "en" "fr"
      (FetchResult.response 200 (Body.parsed
        ⟨none, some ⟨some "X", none, none⟩, some ⟨none, some "bonjour"⟩,
         some ⟨none, some "hello"⟩, none⟩)) initState).1.translationResult = "bonjour" ∧
    (handleSubmit "hi" "en" "fr"
      (FetchResult.response 200 (Body.parsed
        ⟨none, some ⟨some "X", none, none⟩, some ⟨none, some "bonjour"⟩,
         some ⟨none, some "hello"⟩, none⟩)) initState).1.chatResult = "hello" ∧
    (handleSubmit "hi" "en" "fr"
      (FetchResult.response 200 (Body.parsed
        ⟨none, some ⟨some "X", none, none⟩, some ⟨none, some "bonjour"⟩,
         some ⟨none, some "hello"⟩, none⟩)) initState).1.resultsVisible = true ∧
    (handleSubmit "hi" "en" "fr"
      (FetchResult.response 200 (Body.parsed
        ⟨none, some ⟨some "X", none, none⟩, some ⟨none, some "bonjour"⟩,
         some ⟨none, some "hello"⟩, none⟩)) initState).1.errorVisible = false :=
  c2_slot_independence "hi" "en" "fr" 200
    ⟨none, some ⟨some "X", none, none⟩, some ⟨none, some "bonjour"⟩,
     some ⟨none, some "hello"⟩, none⟩ initState
    ⟨some "X", none, none⟩ ⟨none, some "bonjour"⟩ ⟨none, some "hello"⟩ "X" "bonjour" "hello"
    (by decide) (by decide) (by decide) rfl rfl (by decide) rfl (by decide) rfl rfl
    (by decide) rfl

/-- C3: a submission whose text is empty or whitespace-only shows the
empty-input error message and aborts without issuing any network request. -/
theorem c3_empty_input (textVal sourceLang targetLang : String) (fetch : FetchResult)
    (s0 : UIState) (hval : jsTrim textVal = "") :
    (handleSubmit textVal sourceLang targetLang fetch s0).2 = none ∧
    (handleSubmit textVal sourceLang targetLang fetch s0).1.errorVisible = true ∧
    (handleSubmit textVal sourceLang targetLang fetch s0).1.errorMessage = emptyInputMsg ∧
    (handleSubmit textVal sourceLang targetLang fetch s0).1 = showError emptyInputMsg s0 := by
  simp [handleSubmit, hval, showError]

/-- C3 witness. -/
theorem c3_empty_input_witness :
    (handleSubmit "   " "en" "fr" FetchResult.networkError initState).2 = none ∧
    (handleSubmit "   " "en" "fr" FetchResult.networkError initState).1.errorVisible = true ∧
    (handleSubmit "   " "en" "fr" FetchResult.networkError initState).1.errorMessage
      = emptyInputMsg ∧
    (handleSubmit "   " "en" "fr" FetchResult.networkError initState).1
      = showError emptyInputMsg initState :=
  c3_empty_input "   " "en" "fr" FetchResult.networkError initState (by decide)

/-- C4: a non-2xx HTTP status always shows the generic banner, and the
handler never parses the body or reads slot data: the outcome is identical
for every body. -/
theorem c4_http_error (textVal sourceLang targetLang : String) (status : Nat)
    (body : Body) (s0 : UIState)
    (hval : jsTrim textVal ≠ "") (hok : statusOk status = false) :
    (handleSubmit textVal sourceLang targetLang
      (FetchResult.response status body) s0).1.errorVisible = true ∧
    (handleSubmit textVal sourceLang targetLang
      (FetchResult.response status body) s0).1.errorMessage = genericErrorMsg ∧
    (handleSubmit textVal sourceLang targetLang
      (FetchResult.response status body) s0).1.resultsVisible = false ∧
    (∀ body2 : Body, handleSubmit textVal sourceLang targetLang
        (FetchResult.response status body) s0
      = handleSubmit textVal sourceLang targetLang
        (FetchResult.response status body2) s0) := by
  refine ⟨?_, ?_, ?_, ?_⟩ <;>
    simp [handleSubmit, tryBlock, hval, hok, showError, hideError, hideResults]

/-- C4 witness. -/
theorem c4_http_error_witness :
    (handleSubmit "hi" "en" "fr"
      (FetchResult.response 500 Body.parseError) initState).1.errorVisible = true ∧
    (handleSubmit "hi" "en" "fr"
      (FetchResult.response 500 Body.parseError) initState).1.errorMessage
        = genericErrorMsg ∧
    (handleSubmit "hi" "en" "fr"
      (FetchResult.response 500 Body.parseError) initState).1.resultsVisible = false ∧
    (∀ body2 : Body, handleSubmit "hi" "en" "fr"
        (FetchResult.response 500 Body.parseError) initState
      = handleSubmit "hi" "en" "fr" (FetchResult.response 500 body2) initState) :=
  c4_http_error "hi" "en" "fr" 500 Body.parseError initState (by decide) (by decide)

/-- C5: every error thrown during request processing (network failure, JSON
parse failure, or explicit throw inside the try block) leads to the generic
user-facing message with the error banner shown and the results region
hidden. -/
theorem c5_thrown_error (textVal sourceLang targetLang : String) (fetch : FetchResult)
    (s0 : UIState) (hval : jsTrim textVal ≠ "")
    (hthrow : (tryBlock fetch
      (hideResults (hideError { s0 with buttonDisabled := true }))).2.isSome = true) :
    (handleSubmit textVal sourceLang targetLang fetch s0).1.errorVisible = true ∧
    (handleSubmit textVal sourceLang targetLang fetch s0).1.errorMessage = genericErrorMsg ∧
    (handleSubmit textVal sourceLang targetLang fetch s0).1.resultsVisible = false := by
  obtain ⟨m, hm⟩ := Option.isSome_iff_exists.mp hthrow
  simp [handleSubmit, hval, hm, showError]

/-- C5 witness (network failure). -/
theorem c5_thrown_error_witness :
    (handleSubmit "hi" "en" "fr" FetchResult.networkError initState).1.errorVisible = true ∧
    (handleSubmit "hi" "en" "fr" FetchResult.networkError initState).1.errorMessage
      = genericErrorMsg ∧
    (handleSubmit "hi" "en" "fr" FetchResult.networkError initState).1.resultsVisible
      = false :=
  c5_thrown_error "hi" "en" "fr" FetchResult.networkError initState (by decide) (by decide)

/-- C6: whatever the outcome — success, local validation failure, or remote
failure — a submission that starts with the submit control enabled ends with
it enabled: the validation path never disables it, and every other path
re-enables it in the `finally` block. -/
theorem c6_button_reenabled (textVal sourceLang targetLang : String) (fetch : FetchResult)
    (s0 : UIState) (hbtn : s0.buttonDisabled = false) :
    (handleSubmit textVal sourceLang targetLang fetch s0).1.buttonDisabled = false := by
  by_cases hval : jsTrim textVal = ""
  · simp [handleSubmit, hval, showError, hbtn]
  · simp [handleSubmit, hval, showError]

/-- C6 witness. -/
theorem c6_button_reenabled_witness :
    (handleSubmit "hi" "en" "fr" FetchResult.networkError initState).1.buttonDisabled
      = false :=
  c6_button_reenabled "hi" "en" "fr" FetchResult.networkError initState (by decide)

/-- C7: a 200 envelope with no top-level `error` and all three slots
successful hides the error banner, reveals the results region, and renders
the three success contents — the sentiment line with the score formatted to
two decimals, the translation text, and the chat response. -/
theorem c7_all_success (textVal sourceLang targetLang : String) (status : Nat)
    (data : Envelope) (s0 : UIState) (sent : SentimentSlot)
    (tr : TranslationSlot) (ch : ChatSlot) (q : ℚ) (t c : String)
    (hval : jsTrim textVal ≠ "") (hok : statusOk status = true)
    (herr : truthyStr data.error = false)
    (hsent : data.sentiment = some sent) (hse : truthyStr sent.error = false)
    (hsc : sent.score = some q)
    (htr : data.translation = some tr) (hte : truthyStr tr.error = false)
    (htt : tr.text = some t)
    (hch : data.chat = some ch) (hce : truthyStr ch.error = false)
    (hcr : ch.response = some c) :
    (handleSubmit textVal sourceLang targetLang
      (FetchResult.response status (Body.parsed data)) s0).1.errorVisible = false ∧
    (handleSubmit textVal sourceLang targetLang
      (FetchResult.response status (Body.parsed data)) s0).1.resultsVisible = true ∧
    (handleSubmit textVal sourceLang targetLang
      (FetchResult.response status (Body.parsed data)) s0).1.sentimentResult
      = sentimentSuccessHtml sent.sentiment q ∧
    (handleSubmit textVal sourceLang targetLang
      (FetchResult.response status (Body.parsed data)) s0).1.translationResult = t ∧
    (handleSubmit textVal sourceLang targetLang
      (FetchResult.response status (Body.parsed data)) s0).1.chatResult = c := by
  simp [handleSubmit, tryBlock, hval, hok, herr, hsent, htr, hch,
    renderSentiment, renderTranslation, renderChat, hse, hsc, hte, hce, htt, hcr,
    jsStr, hideError, hideResults]

/-- C7 witness: sentiment "positive" with score 0.85. -/
theorem c7_all_success_witness :
    (handleSubmit "hi" "en" "fr"
      (FetchResult.response 200 (Body.parsed
        ⟨none, some ⟨none, some "positive", some (17/20)⟩, some ⟨none, some "bonjour"⟩,
         some ⟨none, some "hello"⟩, none⟩)) initState).1.errorVisible = false ∧
    (handleSubmit "hi" "en" "fr"
      (FetchResult.response 200 (Body.parsed
        ⟨none, some ⟨none, some "positive", some (17/20)⟩, some ⟨none, some "bonjour"⟩,
         some ⟨none, some "hello"⟩, none⟩)) initState).1.resultsVisible = true ∧
    (handleSubmit "hi" "en" "fr"
      (FetchResult.response 200 (Body.parsed
        ⟨none, some ⟨none, some "positive", some (17/20)⟩, some ⟨none, some "bonjour"⟩,
         some ⟨none, some "hello"⟩, none⟩)) initState).1.sentimentResult
      = sentimentSuccessHtml (some "positive") (17/20) ∧
    (handleSubmit "hi" "en" "fr"
      (FetchResult.response 200 (Body.parsed
        ⟨none, some ⟨none, some "positive", some (17/20)⟩, some ⟨none, some "bonjour"⟩,
         some ⟨none, some "hello"⟩, none⟩)) initState).1.translationResult = "bonjour" ∧
    (handleSubmit "hi" "en" "fr"
      (FetchResult.response 200 (Body.parsed
        ⟨none, some ⟨none, some "positive", some (17/20)⟩, some ⟨none, some "bonjour"⟩,
         some ⟨none, some "hello"⟩, none⟩)) initState).1.chatResult = "hello" :=
  c7_all_success "hi" "en" "fr" 200
    ⟨none, some ⟨none, some "positive", some (17/20)⟩, some ⟨none, some "bonjour"⟩,
     some ⟨none, some "hello"⟩, none⟩ initState
    ⟨none, some "positive", some (17/20)⟩ ⟨none, some "bonjour"⟩ ⟨none, some "hello"⟩
    (17/20) "bonjour" "hello"
    (by decide) (by decide) (by decide) rfl (by decide) rfl rfl (by decide) rfl rfl
    (by decide) rfl

/-- C8: a slot whose `error` field is present but equal to the empty string
is treated as successful — the truthiness check fails — and the slot renders
its success content rather than an error-styled message. -/
theorem c8_empty_error_is_success (textVal sourceLang targetLang : String) (status : Nat)
    (data : Envelope) (s0 : UIState) (sent : SentimentSlot)
    (tr : TranslationSlot) (ch : ChatSlot) (q : ℚ) (t c : String)
    (hval : jsTrim textVal ≠ "") (hok : statusOk status = true)
    (herr : truthyStr data.error = false)
    (hsent : data.sentiment = some sent) (hse : sent.error = some "")
    (hsc : sent.score = some q)
    (htr : data.translation = some tr) (hte : tr.error = some "")
    (htt : tr.text = some t)
    (hch : data.chat = some ch) (hce : ch.error = some "")
    (hcr : ch.response = some c) :
    (handleSubmit textVal sourceLang targetLang
      (FetchResult.response status (Body.parsed data)) s0).1.sentimentResult
      = sentimentSuccessHtml sent.sentiment q ∧
    (handleSubmit textVal sourceLang targetLang
      (FetchResult.response status (Body.parsed data)) s0).1.translationResult = t ∧
    (handleSubmit textVal sourceLang targetLang
      (FetchResult.response status (Body.parsed data)) s0).1.chatResult = c ∧
    (handleSubmit textVal sourceLang targetLang
      (FetchResult.response status (Body.parsed data)) s0).1.resultsVisible = true := by
  have hf : truthyStr (some "") = false := by simp [truthyStr]
  simp [handleSubmit, tryBlock, hval, hok, herr, hsent, htr, hch,
    renderSentiment, renderTranslation, renderChat, hse, hsc, hte, hce, htt, hcr, hf,
    jsStr, hideError, hideResults]

/-- C8 witness. -/
theorem c8_empty_error_is_success_witness :
    (handleSubmit "hi" "en" "fr"
      (FetchResult.response 200 (Body.parsed
        ⟨none, some ⟨some "", some "neutral", some (1/2)⟩, some ⟨some "", some "salut"⟩,
         some ⟨some "", some "ok"⟩, none⟩)) initState).1.sentimentResult
      = sentimentSuccessHtml (some "neutral") (1/2) ∧
    (handleSubmit "hi" "en" "fr"
      (FetchResult.response 200 (Body.parsed
        ⟨none, some ⟨some "", some "neutral", some (1/2)⟩, some ⟨some "", some "salut"⟩,
         some ⟨some "", some "ok"⟩, none⟩)) initState).1.translationResult = "salut" ∧
    (handleSubmit "hi" "en" "fr"
      (FetchResult.response 200 (Body.parsed
        ⟨none, some ⟨some "", some "neutral", some (1/2)⟩, some ⟨some "", some "salut"⟩,
         some ⟨some "", some "ok"⟩, none⟩)) initState).1.chatResult = "ok" ∧
    (handleSubmit "hi" "en" "fr"
      (FetchResult.response 200 (Body.parsed
        ⟨none, some ⟨some "", some "neutral", some (1/2)⟩, some ⟨some "", some "salut"⟩,
         some ⟨some "", some "ok"⟩, none⟩)) initState).1.resultsVisible = true :=
  c8_empty_error_is_success "hi" "en" "fr" 200
    ⟨none, some ⟨some "", some "neutral", some (1/2)⟩, some ⟨some "", some "salut"⟩,
     some ⟨some "", some "ok"⟩, none⟩ initState
    ⟨some "", some "neutral", some (1/2)⟩ ⟨some "", some "salut"⟩ ⟨some "", some "ok"⟩
    (1/2) "salut" "ok"
    (by decide) (by decide) (by decide) rfl rfl rfl rfl rfl rfl rfl rfl rfl

/-- Helper: the try block never changes the visibility of the error div —
only the catch handler's `showError` and the initial `hideError` do. -/
lemma tryBlock_errorVisible (fetch : FetchResult) (s : UIState) :
    (tryBlock fetch s).1.errorVisible = s.errorVisible := by
  cases fetch with
  | networkError => rfl
  | response status body =>
    by_cases hok : statusOk status
    · cases body with
      | parseError => simp [tryBlock, hok]
      | parsed data =>
        by_cases herr : truthyStr data.error
        · simp [tryBlock, hok, herr]
        · cases hs : data.sentiment with
          | none => simp [tryBlock, hok, herr, hs]
          | some sent =>
            cases hr : renderSentiment sent with
            | error m => simp [tryBlock, hok, herr, hs, hr]
            | ok html =>
              cases ht : data.translation with
              | none => simp [tryBlock, hok, herr, hs, hr, ht]
              | some tr =>
                cases hc : data.chat with
                | none => simp [tryBlock, hok, herr, hs, hr, ht, hc]
                | some ch => simp [tryBlock, hok, herr, hs, hr, ht, hc]
    · simp [tryBlock, hok]

/-- C9: a 200 envelope with no top-level `error` but a missing slot object
makes the unguarded `.error` read throw a TypeError, which is caught: the
generic banner is shown and the results region hidden, while slots rendered
before the missing one keep their newly written content. -/
theorem c9_missing_slot (textVal sourceLang targetLang : String) (status : Nat)
    (data : Envelope) (s0 : UIState)
    (hval : jsTrim textVal ≠ "") (hok : statusOk status = true)
    (herr : truthyStr data.error = false)
    (hmiss : data.sentiment = none ∨ data.translation = none ∨ data.chat = none) :
    (handleSubmit textVal sourceLang targetLang
      (FetchResult.response status (Body.parsed data)) s0).1.errorVisible = true ∧
    (handleSubmit textVal sourceLang targetLang
      (FetchResult.response status (Body.parsed data)) s0).1.errorMessage
        = genericErrorMsg ∧
    (handleSubmit textVal sourceLang targetLang
      (FetchResult.response status (Body.parsed data)) s0).1.resultsVisible = false ∧
    (∀ (sent : SentimentSlot) (html : String), data.sentiment = some sent →
      renderSentiment sent = Except.ok html → data.translation = none →
      (handleSubmit textVal sourceLang targetLang
        (FetchResult.response status (Body.parsed data)) s0).1.sentimentResult = html) ∧
    (∀ (sent : SentimentSlot) (tr : TranslationSlot) (html : String),
      data.sentiment = some sent → renderSentiment sent = Except.ok html →
      data.translation = some tr → data.chat = none →
      (handleSubmit textVal sourceLang targetLang
        (FetchResult.response status (Body.parsed data)) s0).1.sentimentResult = html ∧
      (handleSubmit textVal sourceLang targetLang
        (FetchResult.response status (Body.parsed data)) s0).1.translationResult
        = renderTranslation tr) := by
  rcases hmiss with h1 | h2 | h3
  · simp [handleSubmit, tryBlock, hval, hok, herr, h1, showError, hideError, hideResults]
  · cases hs : data.sentiment with
    | none =>
      simp [handleSubmit, tryBlock, hval, hok, herr, hs, h2, showError, hideError,
        hideResults]
    | some sent =>
      cases hr : renderSentiment sent with
      | error m =>
        simp [handleSubmit, tryBlock, hval, hok, herr, hs, hr, h2, showError, hideError,
          hideResults]
        aesop
      | ok html =>
        simp [handleSubmit, tryBlock, hval, hok, herr, hs, hr, h2, showError, hideError,
          hideResults]
        aesop
  · cases hs : data.sentiment with
    | none =>
      simp [handleSubmit, tryBlock, hval, hok, herr, hs, h3, showError, hideError,
        hideResults]
    | some sent =>
      cases hr : renderSentiment sent with
      | error m =>
        simp [handleSubmit, tryBlock, hval, hok, herr, hs, hr, h3, showError, hideError,
          hideResults]
        aesop
      | ok html =>
        cases ht : data.translation with
        | none =>
          simp [handleSubmit, tryBlock, hval, hok, herr, hs, hr, ht, h3, showError,
            hideError, hideResults]
          aesop
        | some tr =>
          simp [handleSubmit, tryBlock, hval, hok, herr, hs, hr, ht, h3, showError,
            hideError, hideResults]
          aesop

/-- C9 witness: missing `translation` slot after a successful sentiment. -/
theorem c9_missing_slot_witness :
    (handleSubmit "hi" "en" "fr"
      (FetchResult.response 200 (Body.parsed
        ⟨none, some ⟨none, some "positive", some 1⟩, none, some ⟨none, some "hello"⟩,
         none⟩)) initState).1.errorVisible = true ∧
    (handleSubmit "hi" "en" "fr"
      (FetchResult.response 200 (Body.parsed
        ⟨none, some ⟨none, some "positive", some 1⟩, none, some ⟨none, some "hello"⟩,
         none⟩)) initState).1.errorMessage = genericErrorMsg ∧
    (handleSubmit "hi" "en" "fr"
      (FetchResult.response 200 (Body.parsed
        ⟨none, some ⟨none, some "positive", some 1⟩, none, some ⟨none, some "hello"⟩,
         none⟩)) initState).1.resultsVisible = false ∧
    (∀ (sent : SentimentSlot) (html : String),
      (some ⟨none, some "positive", some 1⟩ : Option SentimentSlot) = some sent →
      renderSentiment sent = Except.ok html → (none : Option TranslationSlot) = none →
      (handleSubmit "hi" "en" "fr"
        (FetchResult.response 200 (Body.parsed
          ⟨none, some ⟨none, some "positive", some 1⟩, none, some ⟨none, some "hello"⟩,
           none⟩)) initState).1.sentimentResult = html) ∧
    (∀ (sent : SentimentSlot) (tr : TranslationSlot) (html : String),
      (some ⟨none, some "positive", some 1⟩ : Option SentimentSlot) = some sent →
      renderSentiment sent = Except.ok html →
      (none : Option TranslationSlot) = some tr →
      (some ⟨none, some "hello"⟩ : Option ChatSlot) = none →
      (handleSubmit "hi" "en" "fr"
        (FetchResult.response 200 (Body.parsed
          ⟨none, some ⟨none, some "positive", some 1⟩, none, some ⟨none, some "hello"⟩,
           none⟩)) initState).1.sentimentResult = html ∧
      (handleSubmit "hi" "en" "fr"
        (FetchResult.response 200 (Body.parsed
          ⟨none, some ⟨none, some "positive", some 1⟩, none, some ⟨none, some "hello"⟩,
           none⟩)) initState).1.translationResult = renderTranslation tr) :=
  c9_missing_slot "hi" "en" "fr" 200
    ⟨none, some ⟨none, some "positive", some 1⟩, none, some ⟨none, some "hello"⟩, none⟩
    initState (by decide) (by decide) (by decide) (Or.inr (Or.inl rfl))

/-- C10: at the end of handling any submission the error banner and the
results region are never both visible. -/
theorem c10_banner_results_exclusive (textVal sourceLang targetLang : String)
    (fetch : FetchResult) (s0 : UIState) :
    (handleSubmit textVal sourceLang targetLang fetch s0).1.errorVisible = false ∨
    (handleSubmit textVal sourceLang targetLang fetch s0).1.resultsVisible = false := by
  by_cases hval : jsTrim textVal = ""
  · right
    simp [handleSubmit, hval, showError]
  · cases h : (tryBlock fetch
        (hideResults (hideError { s0 with buttonDisabled := true }))).2 with
    | some m =>
      right
      simp only [hideError, hideResults] at h
      simp [handleSubmit, hval, h, showError, hideError, hideResults]
    | none =>
      left
      simp only [hideError, hideResults] at h
      simp [handleSubmit, hval, h, tryBlock_errorVisible, hideError, hideResults]
